import Mathlib

/-!
Verification of the `autocommit` repository core (PR-content generation
pipeline) against its natural-language specification.

The Rust sources are shallowly embedded:
* `errors.rs`   → the `Error` inductive;
* `utils.rs`    → `EXCLUDED_LOCK_FILES`, `get_lock_file_exclusions`,
                  `filter_lock_files`, and a byte-exact `truncate_diff`
                  (Rust strings are modelled as byte lists there, since the
                  function slices by byte index; the slice panics of
                  `&s[..i]` at non-character-boundaries are modelled as
                  `none`);
* `git.rs`      → functions over an abstract command runner
                  `List String → Except Error String` standing for
                  `run_git` / `run_gh` (captured, trimmed stdout on
                  success, `Error::Git` on non-zero exit);
* `anthropic.rs`→ `send_message` over a transport oracle and the decode
                  stage of `generate_pr_content` over a decoder oracle
                  standing for `serde_json::from_str::<PRContent>`;
* `autopr/main.rs` → the clarification and operator-decision loops and the
                  surrounding pipeline as fuel-indexed state functions that
                  also record an event trace (generation calls with their
                  arguments, pushes, operator prompts, PR creation).
-/

namespace Autocommit

/-- errors.rs lines 5-34: the error enum.  Payloads that are foreign types
in Rust (`std::io::Error`, `serde_json::Error`, `reqwest::Error`) are
modelled by their display text. -/
inductive Error where
  | User (msg : String)
  | Git (command : String) (stderr : String)
  | Api (msg : String)
  | Io (msg : String)
  | Json (msg : String)
  | Http (msg : String)
deriving DecidableEq, Repr

/-- True exactly on the `Api` constructor of `Error`. -/
def Error.isApi : Error → Bool
  | .Api _ => true
  | _ => false

/-! ## utils.rs -/

/-- utils.rs lines 5-22: the fixed lockfile denylist. -/
def EXCLUDED_LOCK_FILES : List String :=
  ["package-lock.json", "bun.lock", "bun.lockb", "yarn.lock",
   "pnpm-lock.yaml", "Gemfile.lock", "Cargo.lock", "poetry.lock",
   "composer.lock", "go.sum", "Pipfile.lock", "npm-shrinkwrap.json",
   "deno.lock", "flake.lock", "pdm.lock", "uv.lock"]

/-- utils.rs lines 28-33: `get_lock_file_exclusions`, pathspec tokens
`:!name` for each denylisted lockfile. -/
def get_lock_file_exclusions : List String :=
  EXCLUDED_LOCK_FILES.map (fun file => ":!" ++ file)

/-- The final path segment of a character list: everything after the last
slash (the whole list when no slash occurs); see `basenameOf`. -/
def lastSegment (s : List Char) : List Char :=
  s.foldl (fun acc c => if c = '/' then [] else acc ++ [c]) []

/-- utils.rs line 42: `file.rsplit('/').next().unwrap_or(file)`, the
basename of a path (the `unwrap_or` is unreachable: `rsplit` always yields
at least one segment). -/
def basenameOf (file : String) : String :=
  String.mk (lastSegment file.toList)

/-- utils.rs lines 38-46: `filter_lock_files`, keeping exactly the paths
whose basename is not in `EXCLUDED_LOCK_FILES`. -/
def filter_lock_files (files : List String) : List String :=
  files.filter (fun file => !(EXCLUDED_LOCK_FILES.contains (basenameOf file)))

/-! ### `truncate_diff`, at byte level

utils.rs lines 51-62 compute with `str::len` (bytes) and the byte slice
`&diff[..max_size]`.  A Rust byte slice of a `str` panics when the index is
not a UTF-8 character boundary, so the embedding works on byte lists and
returns `none` exactly where the Rust code panics. -/

/-- A UTF-8 continuation byte (`0x80..=0xBF`). -/
def isUtf8ContByte (b : Nat) : Bool := 128 ≤ b && b < 192

/-- Rust `str::is_char_boundary(i)`: true at 0 and at the total length,
and at any index whose byte is not a continuation byte. -/
def is_char_boundary (s : List Nat) (i : Nat) : Bool :=
  if i = 0 then true
  else
    match s.drop i with
    | [] => i == s.length
    | b :: _ => !isUtf8ContByte b

/-- The bytes of an ASCII Lean string (used for the fixed marker text of
`truncate_diff`). -/
def asciiBytes (s : String) : List Nat := s.toList.map Char.toNat

/-- Decimal ASCII digits of a natural number, as bytes (the rendering of
`{}` for a `usize` in `format!`). -/
def natToDecBytes (n : Nat) : List Nat := (Nat.toDigits 10 n).map Char.toNat

/-- The marker appended by utils.rs lines 55-59:
`"\n\n... (diff truncated, {omitted} characters omitted)"`. -/
def truncationMarker (omitted : Nat) : List Nat :=
  asciiBytes "\n\n... (diff truncated, " ++ natToDecBytes omitted
    ++ asciiBytes " characters omitted)"

/-- utils.rs lines 51-62: `truncate_diff` over byte lists.  `none` models
the panic of `&diff[..max_size]` when `max_size` is not a character
boundary (reachable only in the truncating branch, where
`max_size < diff.len()`). -/
def truncate_diff (diff : List Nat) (max_size : Nat) : Option (List Nat × Bool) :=
  if diff.length ≤ max_size then
    some (diff, false)
  else if is_char_boundary diff max_size then
    some (diff.take max_size ++ truncationMarker (diff.length - max_size), true)
  else
    none

/-! ## git.rs

All functions are embedded over an abstract command runner of type
`List String → Except Error String`, standing for `run_git` (git.rs lines
11-25) resp. `run_gh` (lines 32-46): applied to the argument list, it
returns the trimmed captured stdout, or `Error::Git` built from the joined
command line and trimmed stderr on non-zero exit (an `Error.Io` on spawn
failure).  The runner is the collaborator the spec excludes as a black
box; which argument lists the functions pass it is part of the code and is
embedded literally. -/

deriving instance DecidableEq for Except

/-- A black-box command runner (`run_git` / `run_gh`). -/
def CmdRun : Type := List String → Except Error String

/-- git.rs line 50: the `git branch --show-current` argument list. -/
def current_branch_args : List String := ["branch", "--show-current"]

/-- git.rs lines 49-51: `get_current_branch`. -/
def get_current_branch (run : CmdRun) : Except Error String :=
  run current_branch_args

/-- A Boolean prefix test on character lists (used to model the regex
search of `get_default_branch`). -/
def beginsWith : List Char → List Char → Bool
  | [], _ => true
  | _ :: _, [] => false
  | a :: as, b :: bs => a = b && beginsWith as bs

/-- The literal text the regex `HEAD branch: (.+)` must match before its
capture group. -/
def headMarker : List Char := "HEAD branch: ".toList

/-- Leftmost match of the regex `HEAD branch: (.+)` (git.rs line 59): at
the first position where the marker is followed by at least one
non-newline character, capture greedily to the end of the line. -/
def findHeadBranch : List Char → Option (List Char)
  | [] => none
  | c :: rest =>
    if beginsWith headMarker (c :: rest) then
      let line := ((c :: rest).drop headMarker.length).takeWhile (fun ch => ch ≠ '\n')
      if line.isEmpty then findHeadBranch rest else some line
    else findHeadBranch rest

/-- Whitespace-trimming of a character list (both ends), modelling Rust
`str::trim` for the ASCII whitespace that occurs here. -/
def trimChars (l : List Char) : List Char :=
  ((l.dropWhile Char.isWhitespace).reverse.dropWhile Char.isWhitespace).reverse

/-- Rust `str::trim` on the embedded strings. -/
def rustTrim (s : String) : String := String.mk (trimChars s.toList)

/-- Rust `str::to_lowercase` (per-character; the inputs compared here are
ASCII). -/
def rustToLower (s : String) : String := String.mk (s.toList.map Char.toLower)

/-- git.rs lines 56-69: `get_default_branch`.  On success of
`git remote show origin` it extracts the `HEAD branch: (.+)` capture
(trimmed); with no match, or on any command failure, it returns the
literal `"main"` instead of an error. -/
def get_default_branch (run : CmdRun) : Except Error String :=
  match run ["remote", "show", "origin"] with
  | .ok remote =>
    match findHeadBranch remote.toList with
    | some branch => .ok (rustTrim (String.mk branch))
    | none => .ok "main"
  | .error _ => .ok "main"

/-- git.rs lines 72-78: `remote_branch_exists`.  A failure of
`get_current_branch` propagates; a failure of `git ls-remote` is converted
to `false`. -/
def remote_branch_exists (run : CmdRun) : Except Error Bool :=
  match get_current_branch run with
  | .error e => .error e
  | .ok branch =>
    match run ["ls-remote", "--exit-code", "--heads", "origin", branch] with
    | .ok _ => .ok true
    | .error _ => .ok false

/-- Splitting a character list at newline characters. -/
def splitAtNewlines (s : List Char) : List (List Char) :=
  s.foldr
    (fun c acc =>
      if c = '\n' then [] :: acc
      else
        match acc with
        | [] => [[c]]
        | a :: rest => (c :: a) :: rest)
    [[]]

/-- Drop one trailing carriage return (Rust `str::lines` treats `\r\n`
like `\n`). -/
def dropTrailingCR (l : List Char) : List Char :=
  match l.reverse with
  | '\r' :: rest => rest.reverse
  | _ => l

/-- Rust `output.lines().filter(not empty)`: the non-empty lines of a
string. -/
def linesNonEmpty (s : String) : List String :=
  (((splitAtNewlines s.toList).map dropTrailingCR).map String.mk).filter
    (fun line => line ≠ "")

/-- Contiguous-substring test on character lists. -/
def containsChars (pat : List Char) : List Char → Bool
  | [] => pat.isEmpty
  | c :: rest => beginsWith pat (c :: rest) || containsChars pat rest

/-- git.rs line 83: Rust `status.contains("ahead")` as a character-list
substring test. -/
def statusContainsAhead (status : String) : Bool :=
  containsChars "ahead".toList status.toList

/-- git.rs lines 81-86: `check_unpushed_commits`.  On success the answer
is whether stdout contains `"ahead"`; a command failure is converted to
`false`. -/
def check_unpushed_commits (run : CmdRun) : Except Error Bool :=
  match run ["status", "-sb"] with
  | .ok status => .ok (statusContainsAhead status)
  | .error _ => .ok false

/-- git.rs lines 89-94: `push_branch`.  Both the current-branch lookup
failure and the push failure propagate unchanged. -/
def push_branch (run : CmdRun) : Except Error Unit :=
  match get_current_branch run with
  | .error e => .error e
  | .ok branch =>
    match run ["push", "-u", "origin", branch] with
    | .error e => .error e
    | .ok _ => .ok ()

/-- git.rs lines 97-105: `get_staged_diff` argument list. -/
def staged_diff_args : List String :=
  ["diff", "--staged", "--", "."] ++ get_lock_file_exclusions

/-- git.rs lines 97-105: `get_staged_diff`. -/
def get_staged_diff (run : CmdRun) : Except Error String :=
  run staged_diff_args

/-- git.rs lines 108-116: `get_staged_files`. -/
def get_staged_files (run : CmdRun) : Except Error (List String) :=
  match run ["diff", "--staged", "--name-only"] with
  | .error e => .error e
  | .ok output => .ok (filter_lock_files (linesNonEmpty output))

/-- git.rs lines 119-121: `git_commit`. -/
def git_commit (run : CmdRun) (message : String) : Except Error String :=
  run ["commit", "-m", message]

/-- git.rs line 128: the primary `get_commits` command, a range log
against the base branch. -/
def commitsPrimaryArgs (base_branch : String) : List String :=
  ["log", base_branch ++ "..HEAD", "--pretty=format:%s%n%b", "--reverse"]

/-- git.rs line 130: the `get_commits` fallback command — the last 10
commits (`git log -10`). -/
def commitsFallbackArgs : List String :=
  ["log", "-10", "--pretty=format:%s%n%b", "--reverse"]

/-- git.rs lines 126-132: `get_commits`.  Attempts the range log against
the base branch; exactly on failure it runs the `-10` fallback, whose
result (success or error) is returned unchanged. -/
def get_commits (run : CmdRun) (base_branch : String) : Except Error String :=
  match run (commitsPrimaryArgs base_branch) with
  | .ok output => .ok output
  | .error _ => run commitsFallbackArgs

/-- git.rs lines 141-143: the primary `get_diff` command, a three-dot
range diff against the base branch with lockfile exclusions. -/
def diffPrimaryArgs (base_branch : String) : List String :=
  ["diff", base_branch ++ "...HEAD", "--", "."] ++ get_lock_file_exclusions

/-- git.rs lines 148-149: the `get_diff` fallback command, `HEAD~5..HEAD`
with lockfile exclusions. -/
def diffFallbackArgs : List String :=
  ["diff", "HEAD~5", "HEAD", "--", "."] ++ get_lock_file_exclusions

/-- git.rs lines 137-153: `get_diff`. -/
def get_diff (run : CmdRun) (base_branch : String) : Except Error String :=
  match run (diffPrimaryArgs base_branch) with
  | .ok output => .ok output
  | .error _ => run diffFallbackArgs

/-- git.rs line 161: the primary `get_changed_files` command. -/
def filesPrimaryArgs (base_branch : String) : List String :=
  ["diff", "--name-only", base_branch ++ "...HEAD"]

/-- git.rs line 163: the `get_changed_files` fallback command. -/
def filesFallbackArgs : List String :=
  ["diff", "--name-only", "HEAD~5", "HEAD"]

/-- git.rs lines 158-172: `get_changed_files`: range name-only diff with
`HEAD~5` fallback, then non-empty lines filtered of lock files. -/
def get_changed_files (run : CmdRun) (base_branch : String) :
    Except Error (List String) :=
  let output :=
    match run (filesPrimaryArgs base_branch) with
    | .ok output => Except.ok output
    | .error _ => run filesFallbackArgs
  match output with
  | .error e => .error e
  | .ok output => .ok (filter_lock_files (linesNonEmpty output))

/-- git.rs line 178: the `gh pr view` argument list. -/
def pr_view_args : List String :=
  ["pr", "view", "--json", "url", "--jq", ".url"]

/-- git.rs lines 177-182: `get_existing_pr`.  A non-empty stdout is the
URL; empty stdout or any command failure becomes `none`. -/
def get_existing_pr (runGh : CmdRun) : Except Error (Option String) :=
  match runGh pr_view_args with
  | .ok url => if url ≠ "" then .ok (some url) else .ok none
  | .error _ => .ok none

/-- git.rs lines 185-204: the `gh pr create` argument list. -/
def create_pr_args (title body base_branch head_branch : String) : List String :=
  ["pr", "create", "--title", title, "--body", body,
   "--base", base_branch, "--head", head_branch]

/-- git.rs lines 185-204: `create_pr`. -/
def create_pr (runGh : CmdRun) (title body base_branch head_branch : String) :
    Except Error String :=
  runGh (create_pr_args title body base_branch head_branch)

/-! ## anthropic.rs

The HTTP transport (`reqwest`) is the excluded collaborator: a call either
fails outright (a `reqwest::Error`, converted to `Error.Http` by the `?`
operator and the `From` impl of errors.rs line 29), or yields a response
with a status, a body text (`response.text()`, which itself can fail) and
a decode of the body as the `MessageResponse` shape (`response.json()`,
whose failure is again a `reqwest::Error`, hence `Error.Http`).
`serde_json::from_str::<PRContent>` is likewise a collaborator, supplied
as a decoder oracle. -/

/-- anthropic.rs lines 45-53: the `PRContent` shape. -/
structure PRContent where
  title : String
  body : String
  needs_clarification : Option Bool
  clarification_question : Option String
deriving DecidableEq, Repr

/-- anthropic.rs lines 31-36: a content block of the API response (only
the `text` variant exists). -/
inductive ContentBlock where
  | Text (text : String)
deriving DecidableEq, Repr

/-- anthropic.rs lines 39-42: the decoded API response body. -/
structure MessageResponse where
  content : List ContentBlock
deriving DecidableEq, Repr

/-- One observed outcome of the HTTP POST of `send_message`. -/
structure TransportResponse where
  status : Nat
  bodyText : Option String
  jsonDecode : Except String MessageResponse
deriving Repr

/-- Rust `StatusCode::is_success`: `200..=299`. -/
def statusIsSuccess (status : Nat) : Bool := 200 ≤ status && status < 300

/-- anthropic.rs lines 65-101: `send_message`, over a transport outcome.
A transport failure is `Error.Http`; a non-success status is `Error.Api`
with the status and body text (or `"Unknown error"` when the body read
failed); a body that does not decode as `MessageResponse` is `Error.Http`
(the `?` on `response.json()`); an empty content list is
`Error.Api "Empty response from API"`; otherwise the trimmed first text
block is returned. -/
def send_message (transport : Except String TransportResponse) :
    Except Error String :=
  match transport with
  | .error e => .error (.Http e)
  | .ok resp =>
    if statusIsSuccess resp.status then
      match resp.jsonDecode with
      | .error e => .error (.Http e)
      | .ok message_response =>
        match message_response.content.head? with
        | some (ContentBlock.Text text) => .ok (rustTrim text)
        | none => .error (.Api "Empty response from API")
    else
      .error (.Api ("API request failed with status " ++ toString resp.status
        ++ ": " ++ resp.bodyText.getD "Unknown error"))

/-- anthropic.rs line 135: the prompt of `generate_pr_content` is built in
update mode exactly when an existing PR is supplied (`if let Some(pr) =
existing_pr`); otherwise it is built in new-PR mode. -/
def promptIsUpdateMode (existing_pr : Option PRContent) : Bool :=
  existing_pr.isSome

/-- anthropic.rs lines 230-239: the remote call and decode stage of
`generate_pr_content`.  A `send_message` failure propagates unchanged; on
success the text is decoded strictly as `PRContent`, and a decode failure
becomes `Error.Api` with the fixed message embedding the decode error and
the raw response text.  No retry and no repair occurs. -/
def generate_pr_content (transport : Except String TransportResponse)
    (decodePRContent : String → Except String PRContent) :
    Except Error PRContent :=
  match send_message transport with
  | .error e => .error e
  | .ok response_text =>
    match decodePRContent response_text with
    | .ok pr => .ok pr
    | .error e =>
      .error (.Api ("Failed to parse API response as JSON: " ++ e
        ++ "\nResponse: " ++ response_text))

/-! ## autopr/src/main.rs — the loop driver

The pipeline from the existing-PR check (line 69) to PR creation
(line 223) is embedded as a fuel-indexed function over oracles:
* `runGit` / `runGh` — the command runners of git.rs;
* `readFile` — `tokio::fs::read_to_string`, for the template probe;
* `gen n` — the value of the n-th `client.generate_pr_content(...)` call
  of this run (the commits / diff / changed-files / template arguments are
  the gathered values and are identical at every call, so only the
  varying `additional_context` and `existing_pr` arguments are recorded,
  in the event trace);
* `input n` — the n-th operator line (`dialoguer::Input`), `Except` with
  the read-failure message.
The trace records every externally visible action the claims speak about.
Fuel bounds the two operator loops, which the source leaves unbounded;
`Res.spin` marks fuel exhaustion and is never produced by the claims'
instances. -/

/-- The externally visible actions of a pipeline run. -/
inductive Event where
  | reportExisting (url : String)
  | push
  | gen (additional_context : Option String) (existing_pr : Option PRContent)
  | askOperator (prompt : String)
  | createPR (title : String) (body : String)
deriving DecidableEq, Repr

/-- A run result: a value, a propagated error, or fuel exhaustion. -/
inductive Res (α : Type) where
  | ok (a : α)
  | err (e : Error)
  | spin
deriving DecidableEq, Repr

/-- main.rs lines 21-37: the conventional template paths, probed in
order. -/
def template_paths : List String :=
  [".github/PULL_REQUEST_TEMPLATE.md", ".github/pull_request_template.md",
   "PULL_REQUEST_TEMPLATE.md", "pull_request_template.md"]

/-- main.rs lines 21-37: `get_pr_template` — the first readable template
wins; read failures are skipped; absence of all four is `none`, never an
error. -/
def get_pr_template (readFile : String → Except String String) : Option String :=
  (template_paths.filterMap (fun path => (readFile path).toOption)).head?

/-- main.rs lines 127-154: the clarification loop.  State: the current
`PRContent`, the next generation-call index, the next operator-input
index, the event trace.  While the flag (defaulted false) is set: with no
question the loop breaks; otherwise the operator is asked the question,
an empty answer forces the flag to `Some(false)` and re-checks, and a
non-empty answer makes a generation call with the answer as additional
context and **no** existing PR, whose result replaces the content before
the re-check.  Generation and input failures propagate. -/
def clarifyLoop (gen : Nat → Except Error PRContent)
    (input : Nat → Except String String) :
    Nat → PRContent → Nat → Nat → List Event →
      Res (PRContent × Nat × Nat) × List Event
  | fuel, pr, gi, oi, tr =>
    if pr.needs_clarification.getD false then
      match pr.clarification_question with
      | none => (.ok (pr, gi, oi), tr)
      | some question =>
        match fuel with
        | 0 => (.spin, tr)
        | f + 1 =>
          match input oi with
          | .error msg =>
            (.err (.User ("Failed to read input: " ++ msg)),
             tr ++ [.askOperator question])
          | .ok answer =>
            if answer = "" then
              clarifyLoop gen input f
                { pr with needs_clarification := some false }
                gi (oi + 1) (tr ++ [.askOperator question])
            else
              match gen gi with
              | .error e =>
                (.err e, tr ++ [.askOperator question, .gen (some answer) none])
              | .ok newPr =>
                clarifyLoop gen input f newPr (gi + 1) (oi + 1)
                  (tr ++ [.askOperator question, .gen (some answer) none])
    else (.ok (pr, gi, oi), tr)

/-- The operator decision at the readiness prompt. -/
inductive Decision where
  | accepted
  | cancelled
deriving DecidableEq, Repr

/-- main.rs line 174: the readiness prompt. -/
def decisionPrompt : String := "Is this PR ready to create? (Y/n/comment)"

/-- main.rs lines 171-210: the operator decision loop.  Each round reads a
line; `y`/`yes` after trim+lowercase, or a raw empty line, accepts;
`n`/`no` cancels; any other text is revision feedback and triggers a
generation call with that text as additional context and the **current**
content as the existing PR, whose result replaces the content before the
prompt is shown again. -/
def decisionLoop (gen : Nat → Except Error PRContent)
    (input : Nat → Except String String) :
    Nat → PRContent → Nat → Nat → List Event →
      Res (Decision × PRContent × Nat × Nat) × List Event
  | fuel, pr, gi, oi, tr =>
    match fuel with
    | 0 => (.spin, tr)
    | f + 1 =>
      match input oi with
      | .error msg =>
        (.err (.User ("Failed to read input: " ++ msg)),
         tr ++ [.askOperator decisionPrompt])
      | .ok response =>
        let response_lower := rustToLower (rustTrim response)
        if response_lower = "y" ∨ response_lower = "yes" ∨ response = "" then
          (.ok (.accepted, pr, gi, oi + 1), tr ++ [.askOperator decisionPrompt])
        else if response_lower = "n" ∨ response_lower = "no" then
          (.ok (.cancelled, pr, gi, oi + 1), tr ++ [.askOperator decisionPrompt])
        else
          match gen gi with
          | .error e =>
            (.err e,
             tr ++ [.askOperator decisionPrompt, .gen (some response) (some pr)])
          | .ok newPr =>
            decisionLoop gen input f newPr (gi + 1) (oi + 1)
              (tr ++ [.askOperator decisionPrompt, .gen (some response) (some pr)])

/-- main.rs lines 10-18: the two CLI flags. -/
structure Cli where
  yes : Bool
  dry_run : Bool
deriving DecidableEq, Repr

/-- The successful ends of a pipeline run (`run` returning `Ok(())`). -/
inductive Outcome where
  | existingReported (url : String)
  | dryRun (pr : PRContent)
  | cancelled
  | created (url : String)
deriving DecidableEq, Repr

/-- main.rs lines 75-82: the push stage.  Skipped wholesale in dry-run
mode; otherwise `remote_branch_exists` and `check_unpushed_commits` are
awaited in that order (their errors propagate) and `push_branch` runs when
the branch is absent remotely or commits are unpushed. -/
def pushStage (cli : Cli) (runGit : CmdRun) (tr : List Event) :
    Except Error Unit × List Event :=
  if cli.dry_run then (.ok (), tr)
  else
    match remote_branch_exists runGit with
    | .error e => (.error e, tr)
    | .ok remote_exists =>
      match check_unpushed_commits runGit with
      | .error e => (.error e, tr)
      | .ok has_unpushed =>
        if !remote_exists || has_unpushed then
          match push_branch runGit with
          | .error e => (.error e, tr ++ [.push])
          | .ok _ => (.ok (), tr ++ [.push])
        else (.ok (), tr)

/-- main.rs lines 212-221: final PR creation via `gh pr create`; the
resulting URL is the success output, a failure aborts the run. -/
def createStage (runGh : CmdRun) (base_branch current_branch : String)
    (pr : PRContent) (tr : List Event) : Res Outcome × List Event :=
  match create_pr runGh pr.title pr.body base_branch current_branch with
  | .error e => (.err e, tr ++ [.createPR pr.title pr.body])
  | .ok url => (.ok (.created url), tr ++ [.createPR pr.title pr.body])

/-- main.rs lines 156-223: after the clarification loop — preview, the
dry-run early return, the decision loop unless `--yes`, then creation. -/
def decideAndCreate (cli : Cli) (runGh : CmdRun)
    (gen : Nat → Except Error PRContent) (input : Nat → Except String String)
    (base_branch current_branch : String) (fuel : Nat)
    (pr : PRContent) (gi oi : Nat) (tr : List Event) :
    Res Outcome × List Event :=
  if cli.dry_run then (.ok (.dryRun pr), tr)
  else if !cli.yes then
    match decisionLoop gen input fuel pr gi oi tr with
    | (.ok (.accepted, finalPr, _, _), tr2) =>
      createStage runGh base_branch current_branch finalPr tr2
    | (.ok (.cancelled, _, _, _), tr2) => (.ok .cancelled, tr2)
    | (.err e, tr2) => (.err e, tr2)
    | (.spin, tr2) => (.spin, tr2)
  else createStage runGh base_branch current_branch pr tr

/-- main.rs lines 69-223: the pipeline from the existing-PR check
onwards.  If a PR exists its URL is reported and the run ends
successfully.  Otherwise: the push stage; the four gathering calls
(`tokio::join!`, results checked in the order commits, diff,
changed-files, template — the template probe never fails); the
no-changes guard; the first generation call (no additional context, no
existing PR); the clarification loop; preview / dry-run / decision /
creation.  The earlier steps of `run` (config, branch names, same-branch
guard, lines 39-66) perform none of the traced actions and are not
modelled. -/
def runPipeline (cli : Cli) (runGit runGh : CmdRun)
    (readFile : String → Except String String)
    (gen : Nat → Except Error PRContent) (input : Nat → Except String String)
    (base_branch current_branch : String) (fuel : Nat) :
    Res Outcome × List Event :=
  match get_existing_pr runGh with
  | .error e => (.err e, [])
  | .ok (some existing_pr_url) =>
    (.ok (.existingReported existing_pr_url), [.reportExisting existing_pr_url])
  | .ok none =>
    match pushStage cli runGit [] with
    | (.error e, tr) => (.err e, tr)
    | (.ok _, tr) =>
      match get_commits runGit base_branch with
      | .error e => (.err e, tr)
      | .ok _commits =>
        match get_diff runGit base_branch with
        | .error e => (.err e, tr)
        | .ok _diff =>
          match get_changed_files runGit base_branch with
          | .error e => (.err e, tr)
          | .ok changed_files =>
            let _template := get_pr_template readFile
            if changed_files.isEmpty then
              (.err (.User "No changes found compared to base branch."), tr)
            else
              match gen 0 with
              | .error e => (.err e, tr ++ [.gen none none])
              | .ok pr0 =>
                match clarifyLoop gen input fuel pr0 1 0 (tr ++ [.gen none none]) with
                | (.ok (pr, gi, oi), tr2) =>
                  decideAndCreate cli runGh gen input base_branch current_branch
                    fuel pr gi oi tr2
                | (.err e, tr2) => (.err e, tr2)
                | (.spin, tr2) => (.spin, tr2)

/-! ## Claim theorems -/

/-- **C2, counterexample.**  The claim asserts `truncate_diff` is a total
function that, whenever the byte length of the diff exceeds `max_size`,
returns the first `max_size` bytes flagged truncated.  On the two-byte
UTF-8 input `[195, 169]` (the encoding of a single two-byte character)
with `max_size = 1` the Rust code instead panics — the byte slice
`&diff[..1]` hits a non-character-boundary — modelled here as `none`. -/
theorem truncate_diff_total_cex :
    truncate_diff [195, 169] 1 = none ∧ 1 < ([195, 169] : List Nat).length := by
  decide

/-- **C2 (amended).**  `truncate_diff` is byte-exact and pure (it is a
function of the diff bytes and the size alone): whenever the byte length
is at most `max_size` — including exactly `max_size` — the diff is
returned unchanged and unflagged; whenever the byte length exceeds
`max_size` **and** `max_size` lies on a UTF-8 character boundary of the
diff (otherwise the code panics), the result is flagged truncated, starts
with exactly the first `max_size` bytes, and appends the marker stating
the exact omitted byte count `len(d) - m`. -/
theorem truncate_diff_amended (d : List Nat) (m : Nat) :
    (d.length ≤ m → truncate_diff d m = some (d, false)) ∧
    (m < d.length → is_char_boundary d m = true →
      ∃ r : List Nat × Bool,
        truncate_diff d m = some r ∧ r.2 = true ∧
        r.1.take m = d.take m ∧
        r.1 = d.take m ++ truncationMarker (d.length - m)) := by
  constructor
  · intro h
    simp [truncate_diff, h]
  · intro h hb
    refine ⟨(d.take m ++ truncationMarker (d.length - m), true), ?_, rfl, ?_, rfl⟩
    · simp [truncate_diff, Nat.not_le.mpr h, hb]
    · rw [List.take_append_eq_append_take]
      simp [List.take_take, List.length_take, Nat.le_of_lt h, Nat.min_eq_left]

/-- **C2, witness.**  The amended theorem applied at concrete inputs: the
eleven-byte diff `"hello world"` with `max_size = 20` (unchanged) and with
`max_size = 5` (truncated at the ASCII boundary). -/
theorem truncate_diff_amended_witness :
    truncate_diff (asciiBytes "hello world") 20
      = some (asciiBytes "hello world", false) ∧
    ∃ r : List Nat × Bool,
      truncate_diff (asciiBytes "hello world") 5 = some r ∧ r.2 = true ∧
      r.1.take 5 = (asciiBytes "hello world").take 5 ∧
      r.1 = (asciiBytes "hello world").take 5
        ++ truncationMarker ((asciiBytes "hello world").length - 5) :=
  ⟨(truncate_diff_amended (asciiBytes "hello world") 20).1 (by decide),
   (truncate_diff_amended (asciiBytes "hello world") 5).2 (by decide) (by decide)⟩

/-- The filtering predicate of `filter_lock_files`, in propositional
form: a path survives exactly when its basename is not denylisted. -/
theorem filter_lock_files_mem (files : List String) (f : String) :
    f ∈ filter_lock_files files ↔ f ∈ files ∧ basenameOf f ∉ EXCLUDED_LOCK_FILES := by
  simp [filter_lock_files, List.mem_filter]

/-- **C3.**  `filter_lock_files` is idempotent; its result is a
subsequence of the input (hence preserves relative order); every element
whose basename — the final path segment, directory prefixes ignored — is
in the fixed denylist is absent from the result; and every other element
of the input is present. -/
theorem filter_lock_files_spec (files : List String) :
    filter_lock_files (filter_lock_files files) = filter_lock_files files ∧
    (filter_lock_files files).Sublist files ∧
    (∀ f, f ∈ files → basenameOf f ∈ EXCLUDED_LOCK_FILES →
      f ∉ filter_lock_files files) ∧
    (∀ f, f ∈ files → basenameOf f ∉ EXCLUDED_LOCK_FILES →
      f ∈ filter_lock_files files) := by
  refine ⟨?_, List.filter_sublist files, ?_, ?_⟩
  · simp [filter_lock_files, List.filter_filter]
  · intro f _ hbase
    rw [filter_lock_files_mem]
    intro hc
    exact hc.2 hbase
  · intro f hf hbase
    exact (filter_lock_files_mem files f).mpr ⟨hf, hbase⟩

/-- **C3, witness.**  The specification theorem applied to a concrete
file list mixing plain files with bare and prefixed lockfile paths. -/
theorem filter_lock_files_spec_witness :
    filter_lock_files (filter_lock_files
        ["src/main.rs", "frontend/package-lock.json", "Cargo.lock", "README.md"])
      = filter_lock_files
        ["src/main.rs", "frontend/package-lock.json", "Cargo.lock", "README.md"] ∧
    (filter_lock_files
        ["src/main.rs", "frontend/package-lock.json", "Cargo.lock", "README.md"]).Sublist
        ["src/main.rs", "frontend/package-lock.json", "Cargo.lock", "README.md"] ∧
    "frontend/package-lock.json" ∉ filter_lock_files
        ["src/main.rs", "frontend/package-lock.json", "Cargo.lock", "README.md"] ∧
    "README.md" ∈ filter_lock_files
        ["src/main.rs", "frontend/package-lock.json", "Cargo.lock", "README.md"] := by
  obtain ⟨h1, h2, h3, h4⟩ := filter_lock_files_spec
    ["src/main.rs", "frontend/package-lock.json", "Cargo.lock", "README.md"]
  exact ⟨h1, h2, h3 _ (by decide) (by decide), h4 _ (by decide) (by decide)⟩

/-- A demonstration runner for the gathering fallbacks: it fails every
range comparison against a base branch and answers any last-10 window
query with `"LOG10"` and any 5-commit window query (`HEAD~5` or `-5`)
with `"HEAD5"`. -/
def demoRunFallback : CmdRun := fun args =>
  if args.contains "-10" then .ok "LOG10"
  else if args.contains "HEAD~5" || args.contains "-5" then .ok "HEAD5"
  else .error (.Git "git log" "unknown revision")

/-- A runner on which every command succeeds with output `"PRIM"`. -/
def demoRunOk : CmdRun := fun _ => .ok "PRIM"

/-- A runner that agrees with `demoRunFallback` on the two `get_commits`
commands and answers everything else differently (for the independence
part of C1). -/
def demoRunTwin : CmdRun := fun args =>
  if args = commitsPrimaryArgs "dev" then demoRunFallback args
  else if args = commitsFallbackArgs then demoRunFallback args
  else .ok "ELSE"

/-- **C1, counterexample.**  The claim asserts that `get_commits` falls
back to a fixed window over the last **5** commits (`HEAD~5`).  On a
runner that fails the range log, answers the `git log -10` window and
would answer any 5-commit window, `get_commits` returns the `-10`
answer: its fallback command is `git log -10 ...` — the last **10**
commits — and mentions neither `HEAD~5` nor `-5`. -/
theorem get_commits_fallback_window_cex :
    get_commits demoRunFallback "main" = .ok "LOG10" ∧
    demoRunFallback (commitsPrimaryArgs "main")
      = .error (.Git "git log" "unknown revision") ∧
    demoRunFallback commitsFallbackArgs = .ok "LOG10" ∧
    commitsFallbackArgs.contains "-10" = true ∧
    commitsFallbackArgs.contains "HEAD~5" = false ∧
    commitsFallbackArgs.contains "-5" = false := by
  decide

/-- **C1 (amended).**  For every base branch, each of `get_commits`,
`get_diff` and `get_changed_files` first attempts a range comparison
against the base and, exactly when that primary invocation fails, falls
back to a fixed window: the last 10 commits (`git log -10`) for
`get_commits`, and `HEAD~5..HEAD` for `get_diff` and `get_changed_files`.
Each operation reads the runner only at its own two commands, so the
fallback choice of one never affects another's (the independence
conjuncts: any two runners agreeing on an operation's own two commands
give that operation the same result). -/
theorem gather_fallbacks_amended (run run2 : CmdRun) (base : String) :
    (∀ o, run (commitsPrimaryArgs base) = .ok o →
      get_commits run base = .ok o) ∧
    (∀ e, run (commitsPrimaryArgs base) = .error e →
      get_commits run base = run commitsFallbackArgs) ∧
    (∀ o, run (diffPrimaryArgs base) = .ok o →
      get_diff run base = .ok o) ∧
    (∀ e, run (diffPrimaryArgs base) = .error e →
      get_diff run base = run diffFallbackArgs) ∧
    (∀ o, run (filesPrimaryArgs base) = .ok o →
      get_changed_files run base = .ok (filter_lock_files (linesNonEmpty o))) ∧
    (∀ e, run (filesPrimaryArgs base) = .error e →
      get_changed_files run base
        = (run filesFallbackArgs).map
            (fun o => filter_lock_files (linesNonEmpty o))) ∧
    ((run (commitsPrimaryArgs base) = run2 (commitsPrimaryArgs base) ∧
      run commitsFallbackArgs = run2 commitsFallbackArgs) →
      get_commits run base = get_commits run2 base) ∧
    ((run (diffPrimaryArgs base) = run2 (diffPrimaryArgs base) ∧
      run diffFallbackArgs = run2 diffFallbackArgs) →
      get_diff run base = get_diff run2 base) ∧
    ((run (filesPrimaryArgs base) = run2 (filesPrimaryArgs base) ∧
      run filesFallbackArgs = run2 filesFallbackArgs) →
      get_changed_files run base = get_changed_files run2 base) ∧
    diffFallbackArgs.contains "HEAD~5" = true ∧
    filesFallbackArgs.contains "HEAD~5" = true ∧
    commitsFallbackArgs.contains "-10" = true ∧
    commitsFallbackArgs.contains "HEAD~5" = false := by
  refine ⟨?_, ?_, ?_, ?_, ?_, ?_, ?_, ?_, ?_,
    by decide, by decide, by decide, by decide⟩
  · intro o h
    unfold get_commits
    rw [h]
  · intro e h
    unfold get_commits
    rw [h]
  · intro o h
    unfold get_diff
    rw [h]
  · intro e h
    unfold get_diff
    rw [h]
  · intro o h
    unfold get_changed_files
    rw [h]
  · intro e h
    unfold get_changed_files
    rw [h]
    cases run filesFallbackArgs <;> rfl
  · rintro ⟨h1, h2⟩
    unfold get_commits
    rw [h1, h2]
  · rintro ⟨h1, h2⟩
    unfold get_diff
    rw [h1, h2]
  · rintro ⟨h1, h2⟩
    unfold get_changed_files
    rw [h1, h2]

/-- **C1, witness.**  The amended theorem applied to concrete runners:
every primary succeeding (`demoRunOk`), every primary failing
(`demoRunFallback`), and an independence instance between
`demoRunFallback` and `demoRunTwin`, which agree exactly on the two
`get_commits` commands. -/
theorem gather_fallbacks_amended_witness :
    get_commits demoRunOk "dev" = .ok "PRIM" ∧
    get_diff demoRunOk "dev" = .ok "PRIM" ∧
    get_changed_files demoRunOk "dev"
      = .ok (filter_lock_files (linesNonEmpty "PRIM")) ∧
    get_commits demoRunFallback "dev" = demoRunFallback commitsFallbackArgs ∧
    get_diff demoRunFallback "dev" = demoRunFallback diffFallbackArgs ∧
    get_changed_files demoRunFallback "dev"
      = (demoRunFallback filesFallbackArgs).map
          (fun o => filter_lock_files (linesNonEmpty o)) ∧
    get_commits demoRunFallback "dev" = get_commits demoRunTwin "dev" := by
  obtain ⟨hok1, _, hok3, _, hok5, _, _⟩ :=
    gather_fallbacks_amended demoRunOk demoRunOk "dev"
  obtain ⟨_, hf2, _, hf4, _, hf6, hind, _⟩ :=
    gather_fallbacks_amended demoRunFallback demoRunTwin "dev"
  exact ⟨hok1 "PRIM" (by decide), hok3 "PRIM" (by decide), hok5 "PRIM" (by decide),
    hf2 (.Git "git log" "unknown revision") (by decide),
    hf4 (.Git "git log" "unknown revision") (by decide),
    hf6 (.Git "git log" "unknown revision") (by decide),
    hind ⟨by decide, by decide⟩⟩

/-- A runner on which the current-branch query succeeds and every other
command fails (e.g. the network is down). -/
def demoRunNetDown : CmdRun := fun args =>
  if args = current_branch_args then .ok "feature"
  else .error (.Git "git" "network down")

/-- A runner on which every command fails. -/
def demoRunAllFail : CmdRun := fun _ => .error (.Git "git" "boom")

/-- **C5, counterexample.**  The claim allows only two error-swallowing
sites (default-branch detection and the three base-comparison fallbacks)
and demands every other git/forge failure propagate unchanged.  But on a
runner whose `ls-remote`, `status` and `gh pr view` commands fail with a
subprocess error, `remote_branch_exists` returns `Ok(false)`,
`check_unpushed_commits` returns `Ok(false)` and `get_existing_pr`
returns `Ok(None)`: three further operations that convert a subprocess
error into a default value. -/
theorem error_swallow_cex :
    remote_branch_exists demoRunNetDown = .ok false ∧
    demoRunNetDown ["ls-remote", "--exit-code", "--heads", "origin", "feature"]
      = .error (.Git "git" "network down") ∧
    check_unpushed_commits demoRunNetDown = .ok false ∧
    demoRunNetDown ["status", "-sb"] = .error (.Git "git" "network down") ∧
    get_existing_pr demoRunNetDown = .ok none ∧
    demoRunNetDown pr_view_args = .error (.Git "git" "network down") := by
  decide

/-- **C5 (amended).**  The operations that convert a subprocess failure
to a default are exactly: `get_default_branch` (to `"main"`),
`remote_branch_exists` (to `false`), `check_unpushed_commits` (to
`false`), `get_existing_pr` (to `none`), and the primary-range failures
of `get_commits` / `get_diff` / `get_changed_files` (to their fallback
window, whose own failure then propagates).  Every other git/forge
failure — current-branch lookup, push, staged diff and file list, commit,
PR creation, and both-commands-failed gathering — propagates to the
caller unchanged. -/
theorem error_propagation_amended (run runGh : CmdRun) (e : Error)
    (base message title body head : String) :
    (run ["remote", "show", "origin"] = .error e →
      get_default_branch run = .ok "main") ∧
    (∀ b, run current_branch_args = .ok b →
      run ["ls-remote", "--exit-code", "--heads", "origin", b] = .error e →
      remote_branch_exists run = .ok false) ∧
    (run ["status", "-sb"] = .error e → check_unpushed_commits run = .ok false) ∧
    (runGh pr_view_args = .error e → get_existing_pr runGh = .ok none) ∧
    (∀ e2, run (commitsPrimaryArgs base) = .error e →
      run commitsFallbackArgs = .error e2 → get_commits run base = .error e2) ∧
    (∀ e2, run (diffPrimaryArgs base) = .error e →
      run diffFallbackArgs = .error e2 → get_diff run base = .error e2) ∧
    (∀ e2, run (filesPrimaryArgs base) = .error e →
      run filesFallbackArgs = .error e2 →
      get_changed_files run base = .error e2) ∧
    (run current_branch_args = .error e → get_current_branch run = .error e) ∧
    (run current_branch_args = .error e → remote_branch_exists run = .error e) ∧
    (run current_branch_args = .error e → push_branch run = .error e) ∧
    (∀ b, run current_branch_args = .ok b →
      run ["push", "-u", "origin", b] = .error e → push_branch run = .error e) ∧
    (run staged_diff_args = .error e → get_staged_diff run = .error e) ∧
    (run ["diff", "--staged", "--name-only"] = .error e →
      get_staged_files run = .error e) ∧
    (run ["commit", "-m", message] = .error e →
      git_commit run message = .error e) ∧
    (runGh (create_pr_args title body base head) = .error e →
      create_pr runGh title body base head = .error e) := by
  refine ⟨?_, ?_, ?_, ?_, ?_, ?_, ?_, ?_, ?_, ?_, ?_, ?_, ?_, ?_, ?_⟩
  · intro h
    unfold get_default_branch
    rw [h]
  · intro b hb h
    unfold remote_branch_exists get_current_branch
    simp [hb, h]
  · intro h
    unfold check_unpushed_commits
    rw [h]
  · intro h
    unfold get_existing_pr
    rw [h]
  · intro e2 h1 h2
    unfold get_commits
    rw [h1, h2]
  · intro e2 h1 h2
    unfold get_diff
    rw [h1, h2]
  · intro e2 h1 h2
    unfold get_changed_files
    rw [h1, h2]
  · intro h
    unfold get_current_branch
    rw [h]
  · intro h
    unfold remote_branch_exists get_current_branch
    rw [h]
  · intro h
    unfold push_branch get_current_branch
    rw [h]
  · intro b hb h
    unfold push_branch get_current_branch
    simp [hb, h]
  · intro h
    unfold get_staged_diff
    rw [h]
  · intro h
    unfold get_staged_files
    rw [h]
  · intro h
    unfold git_commit
    rw [h]
  · intro h
    unfold create_pr
    rw [h]

/-- **C5, witness.**  The amended theorem applied to concrete runners:
the swallowing sites on a per-command failing runner, and unchanged
propagation on an all-failing runner. -/
theorem error_propagation_amended_witness :
    get_default_branch demoRunAllFail = .ok "main" ∧
    remote_branch_exists demoRunNetDown = .ok false ∧
    check_unpushed_commits demoRunNetDown = .ok false ∧
    get_existing_pr demoRunNetDown = .ok none ∧
    get_commits demoRunAllFail "dev" = .error (.Git "git" "boom") ∧
    get_current_branch demoRunAllFail = .error (.Git "git" "boom") ∧
    push_branch demoRunNetDown = .error (.Git "git" "network down") ∧
    create_pr demoRunAllFail "t" "b" "dev" "feature"
      = .error (.Git "git" "boom") := by
  obtain ⟨ha1, _, _, _, ha5, _, _, ha8, _, _, _, _, _, _, ha15⟩ :=
    error_propagation_amended demoRunAllFail demoRunAllFail
      (.Git "git" "boom") "dev" "m" "t" "b" "feature"
  obtain ⟨_, hn2, hn3, hn4, _, _, _, _, _, _, hn11, _, _, _, _⟩ :=
    error_propagation_amended demoRunNetDown demoRunNetDown
      (.Git "git" "network down") "dev" "m" "t" "b" "feature"
  exact ⟨ha1 (by decide), hn2 "feature" (by decide) (by decide),
    hn3 (by decide), hn4 (by decide),
    ha5 (.Git "git" "boom") (by decide) (by decide), ha8 (by decide),
    hn11 "feature" (by decide) (by decide), ha15 (by decide)⟩

/-- A transport outcome for a failed service call: HTTP 500 with an
unreadable body. -/
def demoServiceDown : TransportResponse :=
  { status := 500, bodyText := none, jsonDecode := .error "irrelevant" }

/-- A transport outcome for a successful call whose text payload is not
the JSON object shape. -/
def demoOkNotJson : TransportResponse :=
  { status := 200, bodyText := some "not json",
    jsonDecode := .ok ⟨[.Text "not json"]⟩ }

/-- A `PRContent` decoder that fails on every input (the behaviour of
`serde_json::from_str::<PRContent>` on non-JSON text). -/
def demoDecodeFail : String → Except String PRContent :=
  fun _ => .error "expected value at line 1"

/-- **C6, counterexample.**  The claim demands that a decode failure be a
`MalformedOutputError` **distinct** from the transport/service error.  In
the code both are the same `Error::Api` variant: a non-success HTTP
status yields `Api "API request failed with status ..."` and a decode
failure yields `Api "Failed to parse API response as JSON: ..."` — they
differ only in message text, not in kind. -/
theorem malformed_output_variant_cex :
    generate_pr_content (.ok demoServiceDown) demoDecodeFail
      = .error (.Api "API request failed with status 500: Unknown error") ∧
    generate_pr_content (.ok demoOkNotJson) demoDecodeFail
      = .error (.Api
          "Failed to parse API response as JSON: expected value at line 1\nResponse: not json") ∧
    Error.isApi (.Api "API request failed with status 500: Unknown error") = true ∧
    Error.isApi (.Api
      "Failed to parse API response as JSON: expected value at line 1\nResponse: not json")
      = true := by
  decide

/-- **C6 (amended).**  When the remote call succeeds but the returned
text fails to decode as the `PRContent` shape, `generate_pr_content`
fails with an error of the **same** `Api` variant used for
transport/service failures, whose message embeds both the decode error
and the raw response text; the error is returned to the caller unchanged
— no retry, coercion or repair occurs (the result is exactly one decode
of the text, surfaced as-is). -/
theorem malformed_output_amended (transport : Except String TransportResponse)
    (decodePRContent : String → Except String PRContent) (text err : String) :
    send_message transport = .ok text →
    decodePRContent text = .error err →
    generate_pr_content transport decodePRContent
      = .error (.Api ("Failed to parse API response as JSON: " ++ err
          ++ "\nResponse: " ++ text)) ∧
    Error.isApi (.Api ("Failed to parse API response as JSON: " ++ err
      ++ "\nResponse: " ++ text)) = true := by
  intro hs hd
  refine ⟨?_, rfl⟩
  unfold generate_pr_content
  simp [hs, hd]

/-- **C6, witness.**  The amended theorem applied to the concrete
successful-transport, non-JSON-payload instance. -/
theorem malformed_output_amended_witness :
    generate_pr_content (.ok demoOkNotJson) demoDecodeFail
      = .error (.Api ("Failed to parse API response as JSON: "
          ++ "expected value at line 1" ++ "\nResponse: " ++ "not json")) ∧
    Error.isApi (.Api ("Failed to parse API response as JSON: "
      ++ "expected value at line 1" ++ "\nResponse: " ++ "not json")) = true :=
  malformed_output_amended (.ok demoOkNotJson) demoDecodeFail
    "not json" "expected value at line 1" (by decide) rfl

/-- A generated `PRContent` that requests clarification with a question. -/
def demoAskPR : PRContent :=
  { title := "T", body := "B", needs_clarification := some true,
    clarification_question := some "Which subsystem?" }

/-- A generated `PRContent` that sets the clarification flag but carries
no question. -/
def demoNoQuestionPR : PRContent :=
  { title := "T", body := "B", needs_clarification := some true,
    clarification_question := none }

/-- A regenerated `PRContent` that needs no clarification. -/
def demoNewPR : PRContent :=
  { title := "T2", body := "B2", needs_clarification := some false,
    clarification_question := none }

/-- A final `PRContent` with both optional fields absent. -/
def demoFinalPR : PRContent :=
  { title := "T", body := "B", needs_clarification := none,
    clarification_question := none }

/-- A generation oracle that always fails (never reached in the runs it
is used for). -/
def demoGenNone : Nat → Except Error PRContent := fun _ => .error (.Api "unused")

/-- A generation oracle whose every call yields `demoNewPR`. -/
def demoGenNew : Nat → Except Error PRContent := fun _ => .ok demoNewPR

/-- Operator input streams used by the loop claims. -/
def demoInputEmpty : Nat → Except String String := fun _ => .ok ""

/-- An operator who always answers `"the parser"`. -/
def demoInputAnswer : Nat → Except String String := fun _ => .ok "the parser"

/-- An operator who accepts with `"y"`. -/
def demoInputYes : Nat → Except String String := fun _ => .ok "y"

/-- An operator who declines with `"n"`. -/
def demoInputNo : Nat → Except String String := fun _ => .ok "n"

/-- An operator who gives revision feedback. -/
def demoInputFeedback : Nat → Except String String := fun _ => .ok "make it shorter"

/-- **C7.**  In the clarification loop, for every content with the flag
set and a question present, an empty operator answer yields — with no
further generation call, as the exact event trace shows — the same
content with `needs_clarification` forced to `Some(false)`, on which the
loop then exits. -/
theorem clarify_empty_answer_spec (gen : Nat → Except Error PRContent)
    (input : Nat → Except String String) (fuel : Nat) (pr : PRContent)
    (gi oi : Nat) (tr : List Event) (q : String) :
    pr.needs_clarification = some true →
    pr.clarification_question = some q →
    input oi = .ok "" →
    clarifyLoop gen input (fuel + 1) pr gi oi tr
      = (.ok ({ pr with needs_clarification := some false }, gi, oi + 1),
         tr ++ [.askOperator q]) ∧
    ({ pr with needs_clarification := some false } : PRContent).needs_clarification
      = some false := by
  intro hn hq hi
  refine ⟨?_, rfl⟩
  rw [clarifyLoop]
  simp only [hn, hq, hi]
  rw [clarifyLoop]
  simp

/-- **C7, witness.**  The theorem applied to a concrete
clarification-requesting content and the empty-answering operator. -/
theorem clarify_empty_answer_spec_witness :
    clarifyLoop demoGenNone demoInputEmpty 1 demoAskPR 1 0 []
      = (.ok ({ demoAskPR with needs_clarification := some false }, 1, 1),
         [.askOperator "Which subsystem?"]) ∧
    ({ demoAskPR with needs_clarification := some false } : PRContent).needs_clarification
      = some false := by
  have h := clarify_empty_answer_spec demoGenNone demoInputEmpty 0 demoAskPR
    1 0 [] "Which subsystem?" rfl rfl rfl
  simpa using h

/-- **C10.**  If the content has the clarification flag set but no
question, the clarification loop exits immediately (any fuel, even 0):
the operator is never prompted, no generation call occurs (the trace is
unchanged), and the content — its `true` flag included — is returned
as-is. -/
theorem clarify_no_question_spec (gen : Nat → Except Error PRContent)
    (input : Nat → Except String String) (fuel : Nat) (pr : PRContent)
    (gi oi : Nat) (tr : List Event) :
    pr.needs_clarification = some true →
    pr.clarification_question = none →
    clarifyLoop gen input fuel pr gi oi tr = (.ok (pr, gi, oi), tr) := by
  intro hn hq
  rw [clarifyLoop]
  simp [hn, hq]

/-- **C10, witness.**  The theorem applied to the concrete
flag-without-question content. -/
theorem clarify_no_question_spec_witness :
    clarifyLoop demoGenNone demoInputEmpty 5 demoNoQuestionPR 1 0 []
      = (.ok (demoNoQuestionPR, 1, 0), []) :=
  clarify_no_question_spec demoGenNone demoInputEmpty 5 demoNoQuestionPR 1 0 []
    rfl rfl

/-- **C4, counterexample.**  The claim asserts that a non-empty
clarification answer triggers an **update-mode** generation with the
previous `PRContent` supplied as the existing PR.  In the concrete run
below the operator answers `"the parser"`, and the recorded generation
call is `.gen (some "the parser") none`: the answer is passed as
additional context but the existing-PR argument is `None`, so by the
mode selection of anthropic.rs line 135 the call is built in **new-PR**
mode, not update mode. -/
theorem clarify_update_mode_cex :
    clarifyLoop demoGenNew demoInputAnswer 2 demoAskPR 1 0 []
      = (.ok (demoNewPR, 2, 1),
         [.askOperator "Which subsystem?", .gen (some "the parser") none]) ∧
    promptIsUpdateMode none = false ∧
    promptIsUpdateMode (some demoAskPR) = true := by
  decide

/-- **C4 (amended).**  Whenever the content has the flag set with a
question present and the operator gives a non-empty answer, the next
model call is a **new-PR-mode** generation — the answer passed as
additional context, the existing-PR argument `None` (so the previous
content is *not* supplied) — and its result replaces the content before
the flag is re-checked (the loop recurses on the new content). -/
theorem clarify_nonempty_answer_amended (gen : Nat → Except Error PRContent)
    (input : Nat → Except String String) (fuel : Nat) (pr : PRContent)
    (gi oi : Nat) (tr : List Event) (q answer : String) (newPr : PRContent) :
    pr.needs_clarification = some true →
    pr.clarification_question = some q →
    input oi = .ok answer →
    answer ≠ "" →
    gen gi = .ok newPr →
    clarifyLoop gen input (fuel + 1) pr gi oi tr
      = clarifyLoop gen input fuel newPr (gi + 1) (oi + 1)
          (tr ++ [.askOperator q, .gen (some answer) none]) ∧
    promptIsUpdateMode none = false := by
  intro hn hq hi ha hg
  refine ⟨?_, rfl⟩
  rw [clarifyLoop]
  simp only [hn, hq, hi, hg]
  simp [ha]

/-- **C4, witness.**  The amended theorem applied to the concrete
clarification round with answer `"the parser"`. -/
theorem clarify_nonempty_answer_amended_witness :
    clarifyLoop demoGenNew demoInputAnswer 1 demoAskPR 1 0 []
      = clarifyLoop demoGenNew demoInputAnswer 0 demoNewPR 2 1
          ([] ++ [.askOperator "Which subsystem?", .gen (some "the parser") none]) ∧
    promptIsUpdateMode none = false :=
  clarify_nonempty_answer_amended demoGenNew demoInputAnswer 0 demoAskPR 1 0 []
    "Which subsystem?" "the parser" demoNewPR rfl rfl rfl (by decide) rfl

/-- **C9.**  At the operator decision prompt: `y`/`yes` (after
trim+lowercase) or a raw empty line accepts, proceeding with the current
content; `n`/`no` ends the round as `Cancelled` — and, through
`decideAndCreate`, ends the run successfully with no creation event and
no generation event; any other non-empty input is revision feedback
triggering a generation call with that text as additional context and
the **current** content as the existing PR (update mode), after which the
loop re-enters with the regenerated content and the prompt is shown
again. -/
theorem decision_prompt_spec (gen : Nat → Except Error PRContent)
    (input : Nat → Except String String) (fuel : Nat) (pr : PRContent)
    (gi oi : Nat) (tr : List Event) (resp : String) (newPr : PRContent)
    (runGh : CmdRun) (base cur : String) :
    input oi = .ok resp →
    ((rustToLower (rustTrim resp) = "y" ∨ rustToLower (rustTrim resp) = "yes"
        ∨ resp = "") →
      decisionLoop gen input (fuel + 1) pr gi oi tr
        = (.ok (.accepted, pr, gi, oi + 1), tr ++ [.askOperator decisionPrompt])) ∧
    (¬(rustToLower (rustTrim resp) = "y" ∨ rustToLower (rustTrim resp) = "yes"
        ∨ resp = "") →
      (rustToLower (rustTrim resp) = "n" ∨ rustToLower (rustTrim resp) = "no") →
      decisionLoop gen input (fuel + 1) pr gi oi tr
        = (.ok (.cancelled, pr, gi, oi + 1), tr ++ [.askOperator decisionPrompt])) ∧
    (¬(rustToLower (rustTrim resp) = "y" ∨ rustToLower (rustTrim resp) = "yes"
        ∨ resp = "") →
      ¬(rustToLower (rustTrim resp) = "n" ∨ rustToLower (rustTrim resp) = "no") →
      gen gi = .ok newPr →
      decisionLoop gen input (fuel + 1) pr gi oi tr
        = decisionLoop gen input fuel newPr (gi + 1) (oi + 1)
            (tr ++ [.askOperator decisionPrompt, .gen (some resp) (some pr)])) ∧
    (∀ cli : Cli, cli.dry_run = false → cli.yes = false →
      ¬(rustToLower (rustTrim resp) = "y" ∨ rustToLower (rustTrim resp) = "yes"
        ∨ resp = "") →
      (rustToLower (rustTrim resp) = "n" ∨ rustToLower (rustTrim resp) = "no") →
      decideAndCreate cli runGh gen input base cur (fuel + 1) pr gi oi tr
        = (.ok .cancelled, tr ++ [.askOperator decisionPrompt])) := by
  intro hi
  have hcancel : ∀ (hna : ¬(rustToLower (rustTrim resp) = "y"
      ∨ rustToLower (rustTrim resp) = "yes" ∨ resp = ""))
      (hc : rustToLower (rustTrim resp) = "n" ∨ rustToLower (rustTrim resp) = "no"),
      decisionLoop gen input (fuel + 1) pr gi oi tr
        = (.ok (.cancelled, pr, gi, oi + 1), tr ++ [.askOperator decisionPrompt]) := by
    intro hna hc
    rw [decisionLoop]
    simp only [hi]
    rw [if_neg hna, if_pos hc]
  refine ⟨?_, hcancel, ?_, ?_⟩
  · intro hacc
    rw [decisionLoop]
    simp only [hi]
    rw [if_pos hacc]
  · intro hna hnc hg
    rw [decisionLoop]
    simp only [hi, hg]
    rw [if_neg hna, if_neg hnc]
  · intro cli hdry hyes hna hc
    unfold decideAndCreate
    rw [hdry, hyes, hcancel hna hc]
    simp

/-- **C9, witness.**  The theorem applied at the three concrete operator
inputs `"y"`, `"n"` and `"make it shorter"`, plus the cancelled run
through `decideAndCreate`. -/
theorem decision_prompt_spec_witness :
    decisionLoop demoGenNew demoInputYes 1 demoFinalPR 1 0 []
      = (.ok (.accepted, demoFinalPR, 1, 1), [.askOperator decisionPrompt]) ∧
    decisionLoop demoGenNew demoInputNo 1 demoFinalPR 1 0 []
      = (.ok (.cancelled, demoFinalPR, 1, 1), [.askOperator decisionPrompt]) ∧
    decisionLoop demoGenNew demoInputFeedback 2 demoFinalPR 1 0 []
      = decisionLoop demoGenNew demoInputFeedback 1 demoNewPR 2 1
          ([] ++ [.askOperator decisionPrompt,
                  .gen (some "make it shorter") (some demoFinalPR)]) ∧
    decideAndCreate ⟨false, false⟩ demoRunAllFail demoGenNew demoInputNo
        "dev" "feature" 1 demoFinalPR 1 0 []
      = (.ok .cancelled, [.askOperator decisionPrompt]) := by
  have hy := (decision_prompt_spec demoGenNew demoInputYes 0 demoFinalPR 1 0 []
    "y" demoNewPR demoRunAllFail "dev" "feature" rfl).1 (by decide)
  have hn := (decision_prompt_spec demoGenNew demoInputNo 0 demoFinalPR 1 0 []
    "n" demoNewPR demoRunAllFail "dev" "feature" rfl).2.1 (by decide) (by decide)
  have hf := (decision_prompt_spec demoGenNew demoInputFeedback 1 demoFinalPR 1 0 []
    "make it shorter" demoNewPR demoRunAllFail "dev" "feature" rfl).2.2.1
    (by decide) (by decide) rfl
  have hd := (decision_prompt_spec demoGenNew demoInputNo 0 demoFinalPR 1 0 []
    "n" demoNewPR demoRunAllFail "dev" "feature" rfl).2.2.2
    ⟨false, false⟩ rfl rfl (by decide) (by decide)
  exact ⟨by simpa using hy, by simpa using hn, by simpa using hf, by simpa using hd⟩

/-- A forge runner on which `gh pr view` reports an existing PR URL. -/
def demoRunGhPR : CmdRun := fun args =>
  if args = pr_view_args then .ok "https://example.com/pr/1" else .ok ""

/-- **C8.**  Whenever `get_existing_pr` returns a URL, the pipeline halts
successfully reporting exactly that URL, and its full event trace is the
single report event: no push, no generation call and no PR-creation call
occurs anywhere in the run. -/
theorem existing_pr_short_circuit (cli : Cli) (runGit runGh : CmdRun)
    (readFile : String → Except String String)
    (gen : Nat → Except Error PRContent) (input : Nat → Except String String)
    (base cur : String) (fuel : Nat) (url : String) :
    get_existing_pr runGh = .ok (some url) →
    runPipeline cli runGit runGh readFile gen input base cur fuel
      = (.ok (.existingReported url), [.reportExisting url]) := by
  intro h
  unfold runPipeline
  rw [h]

/-- **C8, witness.**  The theorem applied to a concrete run whose forge
runner reports an existing PR, with every other oracle failing (so any
further step would have produced a visible error or event). -/
theorem existing_pr_short_circuit_witness :
    runPipeline ⟨false, false⟩ demoRunAllFail demoRunGhPR
        (fun _ => .error "no file") demoGenNone demoInputEmpty "main" "feature" 3
      = (.ok (.existingReported "https://example.com/pr/1"),
         [.reportExisting "https://example.com/pr/1"]) :=
  existing_pr_short_circuit ⟨false, false⟩ demoRunAllFail demoRunGhPR
    (fun _ => .error "no file") demoGenNone demoInputEmpty "main" "feature" 3
    "https://example.com/pr/1" (by decide)

end Autocommit
